import Mathlib

/-!
Verification of the sensirion-i2c-driver connection layer.

Shallow embedding of `src/sensirion_i2c_driver/connection.py` and
`src/sensirion_i2c_driver/micropython_i2c_transceiver.py`.

Conventions of the embedding:
* Byte strings are `List Nat`.
* Python exceptions captured as values are explicit sum types; a Python
  `raise` is an `Except.error` result of the embedded function.
* The underlying transceiver error objects have an opaque type `ε`, the
  exceptions a command's decode operation can raise have an opaque type `δ`,
  and the domain values a command decodes to have an opaque type `α`.
  Python's global `str` on error objects is passed as a function `es : ε → String`.
* Wall-clock behaviour (`time.sleep`) is not modelled; delay parameters are
  carried as data.
-/

namespace SensirionI2cDriver

variable {ε δ α β : Type}

/-- Status codes of the V1 transceiver interface. `connection.py` compares
against `I2cTransceiverV1.STATUS_*` (modelled from the spec, since
`transceiver_v1.py` is not among the sources: the spec fixes the set
OK/CHANNEL_DISABLED/NACK/TIMEOUT/UNSPECIFIED_ERROR with stable values); the
numeric values are those the in-source MicroPython transceiver declares in
`micropython_i2c_transceiver.py` lines 23-27. -/
def STATUS_OK : Int := 0

/-- Status code for "channel disabled error". -/
def STATUS_CHANNEL_DISABLED : Int := 1

/-- Status code for "not acknowledged error". -/
def STATUS_NACK : Int := 2

/-- Status code for "timeout error". -/
def STATUS_TIMEOUT : Int := 3

/-- Status code for "unspecified error". -/
def STATUS_UNSPECIFIED_ERROR : Int := 4

/-- Raw outcome triple `(status, error, rx_data)` returned by an API-V1
transceiver for one channel. The status is an arbitrary integer (the adapter
has a catch-all branch for unknown statuses). -/
structure RawTriple (ε : Type) where
  status : Int
  error : Option ε
  rx_data : List Nat
  deriving DecidableEq

/-- Modelled from the spec: the error classes of `errors.py` (not among the
sources). Constructor payloads follow the call sites in
`connection.py` lines 198-205: `I2cChannelDisabledError(error, rx_data)`,
`I2cNackError(error, rx_data)`, `I2cTimeoutError(error, rx_data)`,
`I2cTransceiveError(error, rx_data, str(error))`. -/
inductive I2cError (ε : Type) where
  | channelDisabled (error : Option ε) (rx_data : List Nat)
  | nack (error : Option ε) (rx_data : List Nat)
  | timeout (error : Option ε) (rx_data : List Nat)
  | transceiveErr (error : Option ε) (rx_data : List Nat) (message : String)
  deriving DecidableEq

/-- Result of `_convert_result_v1` for one channel: either the raw bytes
passed through (status OK) or a captured error object. In Python this is the
dynamic distinction "is the object an `Exception` instance". -/
inductive ConvertedV1 (ε : Type) where
  | data (rx : List Nat)
  | err (e : I2cError ε)
  deriving DecidableEq

/-- Python's `str` applied to an optional error object (`str(None) = "None"`). -/
def pyStr (es : ε → String) : Option ε → String
  | none => "None"
  | some e => es e

/-- `I2cConnection._convert_result_v1` (connection.py lines 191-205): maps an
API-V1 raw triple to either the raw bytes (OK) or one error object per
non-OK status, with a catch-all transceive error for unknown statuses. -/
def convertResultV1 (es : ε → String) (r : RawTriple ε) : ConvertedV1 ε :=
  if r.status = STATUS_OK then
    .data r.rx_data
  else if r.status = STATUS_CHANNEL_DISABLED then
    .err (.channelDisabled r.error r.rx_data)
  else if r.status = STATUS_NACK then
    .err (.nack r.error r.rx_data)
  else if r.status = STATUS_TIMEOUT then
    .err (.timeout r.error r.rx_data)
  else
    .err (.transceiveErr r.error r.rx_data (pyStr es r.error))

/-- Shape of what a V1 transceiver's `transceive` returns: a single triple
(single-channel transceiver) or a list of triples, one per channel
(multi-channel transceiver). -/
inductive RawResponse (ε : Type) where
  | single (r : RawTriple ε)
  | multi (rs : List (RawTriple ε))

/-- A transceiver as `connection.py` sees it: a declared `API_VERSION`,
a `channel_count` (`none` for single-channel transceivers) and the
`transceive` primitive taking
(slave_address, tx_data, rx_length, read_delay, timeout). -/
structure Transceiver (ε : Type) where
  API_VERSION : Int
  channel_count : Option Nat
  transceive : Nat → Option (List Nat) → Option Nat → Nat → Nat → RawResponse ε

/-- Result of `_transceive_v1`: one converted outcome, or a list of them. -/
inductive ConvertedResponse (ε : Type) where
  | single (c : ConvertedV1 ε)
  | multi (cs : List (ConvertedV1 ε))

/-- `I2cConnection._transceive_v1` (connection.py lines 174-189): call the
transceiver, then convert the result per channel when `channel_count` is not
`None`, else convert the single result. The `none` cases are
contract-violating shape mismatches (a transceiver whose declared channel
count disagrees with the shape of what `transceive` returned); the Python
code would produce garbage or crash there and no claim concerns them. -/
def transceiveV1 (es : ε → String) (t : Transceiver ε) (slave_address : Nat)
    (tx_data : Option (List Nat )) (rx_length : Option Nat)
    (read_delay timeout : Nat) : Option (ConvertedResponse ε) :=
  match t.channel_count, t.transceive slave_address tx_data rx_length read_delay timeout with
  | some _, .multi rs => some (.multi (rs.map (convertResultV1 es)))
  | some _, .single _ => none
  | none, .single r => some (.single (convertResultV1 es r))
  | none, .multi _ => none

/-- A command as `connection.py` sees it: transaction parameters plus the
decode operation `interpret_response`, which may raise (an exception of
type `δ`) or return a domain value (of type `α`). -/
structure I2cCommand (δ α : Type) where
  tx_data : Option (List Nat)
  rx_length : Option Nat
  read_delay : Nat
  timeout : Nat
  interpret_response : List Nat → Except δ α

/-- An exception object as produced per channel by the interpretation phase:
either an error from the transceiver adapter or an exception captured from
the command's decode operation. -/
inductive CapturedError (ε δ : Type) where
  | i2c (e : I2cError ε)
  | decode (e : δ)
  deriving DecidableEq

/-- One channel's interpreted response: a captured error object or the
decoded domain value. -/
inductive Interpreted (ε δ α : Type) where
  | err (e : CapturedError ε δ)
  | val (v : α)
  deriving DecidableEq

/-- `I2cConnection._interpret_single_response` (connection.py lines 231-243):
pass captured errors through unchanged without decoding; otherwise decode,
capturing a raised exception as an error value. -/
def interpretSingleResponse (cmd : I2cCommand δ α) (response : ConvertedV1 ε) :
    Interpreted ε δ α :=
  match response with
  | .err e => .err (.i2c e)
  | .data rx =>
    match cmd.interpret_response rx with
    | .ok v => .val v
    | .error e => .err (.decode e)

/-- Shape of a successful return of `write`/`read`/`execute`: the decoded
value directly (single-channel mode, flag unset) or a list of per-channel
interpreted responses. -/
inductive CallReturn (ε δ α : Type) where
  | direct (v : α)
  | list (l : List (Interpreted ε δ α))
  deriving DecidableEq

/-- An exception raised (not returned) by `write`/`read`/`execute`: the
unsupported-API-version `Exception` or a per-channel captured error raised
in single-channel mode with the flag unset. -/
inductive Raised (ε δ : Type) where
  | config (msg : String)
  | captured (e : CapturedError ε δ)
  deriving DecidableEq

/-- `I2cConnection._interpret_response` (connection.py lines 207-229):
list-shaped responses are interpreted per channel and returned as a list,
never raising; a single response is wrapped in a one-element list when
`always_multi_channel_response` is true, and otherwise is raised if it is an
error or returned directly if it is a value. -/
def interpretResponse (always_multi : Bool) (cmd : I2cCommand δ α)
    (response : ConvertedResponse ε) :
    Except (CapturedError ε δ) (CallReturn ε δ α) :=
  match response with
  | .multi cs => .ok (.list (cs.map (fun ch => interpretSingleResponse cmd ch)))
  | .single c =>
    if always_multi = true then
      .ok (.list [interpretSingleResponse cmd c])
    else
      match interpretSingleResponse cmd c with
      | .err e => .error e
      | .val v => .ok (.direct v)

/-- The connection state: the transceiver reference and the mutable
`always_multi_channel_response` flag (connection.py lines 51-81). -/
structure I2cConnection (ε : Type) where
  transceiver : Transceiver ε
  always_multi_channel_response : Bool

/-- `I2cConnection.__init__` (connection.py lines 51-61): stores the
transceiver and sets the flag to `False`. -/
def I2cConnection.init (t : Transceiver ε) : I2cConnection ε :=
  ⟨t, false⟩

/-- The message of the exception raised for an unsupported transceiver API
version (connection.py lines 169-172). -/
def configMsg (v : Int) : String :=
  "The I2C transceiver API version " ++ toString v ++ " is not " ++
  "supported. You might need to update the " ++
  "sensirion-i2c-driver package."

/-- `I2cConnection._transceive` (connection.py lines 157-172): dispatch on the
transceiver's declared API version; the dispatch table contains only
version 1, every other version raises. -/
def connTransceive (es : ε → String) (conn : I2cConnection ε)
    (slave_address : Nat) (tx_data : Option (List Nat))
    (rx_length : Option Nat) (read_delay timeout : Nat) :
    Except String (Option (ConvertedResponse ε)) :=
  if conn.transceiver.API_VERSION = 1 then
    .ok (transceiveV1 es conn.transceiver slave_address tx_data rx_length
      read_delay timeout)
  else
    .error (configMsg conn.transceiver.API_VERSION)

/-- The shared pipeline of `write`/`read`/`execute`:
`_interpret_response(command, _transceive(...))`. `none` stands for the
unmodelled shape-mismatch crash inside `_transceive_v1`; otherwise the call
either raises (`Except.error`) or returns (`Except.ok`). -/
def runCall (es : ε → String) (conn : I2cConnection ε) (cmd : I2cCommand δ α)
    (slave_address : Nat) (tx_data : Option (List Nat))
    (rx_length : Option Nat) (read_delay timeout : Nat) :
    Option (Except (Raised ε δ) (CallReturn ε δ α)) :=
  match connTransceive es conn slave_address tx_data rx_length read_delay timeout with
  | .error msg => some (.error (.config msg))
  | .ok none => none
  | .ok (some resp) =>
    match interpretResponse conn.always_multi_channel_response cmd resp with
    | .error e => some (.error (.captured e))
    | .ok ret => some (.ok ret)

/-- `I2cConnection.write` (connection.py lines 83-105): transceive with the
command's tx_data, no expected read length, read delay 0. -/
def I2cConnection.write (es : ε → String) (conn : I2cConnection ε)
    (slave_address : Nat) (cmd : I2cCommand δ α) :
    Option (Except (Raised ε δ) (CallReturn ε δ α)) :=
  runCall es conn cmd slave_address cmd.tx_data none 0 cmd.timeout

/-- `I2cConnection.read` (connection.py lines 107-130): transceive with no
tx_data, the command's rx_length, read delay 0. -/
def I2cConnection.read (es : ε → String) (conn : I2cConnection ε)
    (slave_address : Nat) (cmd : I2cCommand δ α) :
    Option (Except (Raised ε δ) (CallReturn ε δ α)) :=
  runCall es conn cmd slave_address none cmd.rx_length 0 cmd.timeout

/-- `I2cConnection.execute` (connection.py lines 132-155): transceive with the
command's full parameter set. -/
def I2cConnection.execute (es : ε → String) (conn : I2cConnection ε)
    (slave_address : Nat) (cmd : I2cCommand δ α) :
    Option (Except (Raised ε δ) (CallReturn ε δ α)) :=
  runCall es conn cmd slave_address cmd.tx_data cmd.rx_length cmd.read_delay
    cmd.timeout

/-- State-passing form of `write`: the method body contains no assignment to
`self._transceiver` or `self._always_multi_channel_response`, so the
post-state equals the pre-state. -/
def I2cConnection.writeS (es : ε → String) (conn : I2cConnection ε)
    (slave_address : Nat) (cmd : I2cCommand δ α) :
    Option (Except (Raised ε δ) (CallReturn ε δ α)) × I2cConnection ε :=
  (conn.write es slave_address cmd, conn)

/-- State-passing form of `read`; no method body mutates the connection. -/
def I2cConnection.readS (es : ε → String) (conn : I2cConnection ε)
    (slave_address : Nat) (cmd : I2cCommand δ α) :
    Option (Except (Raised ε δ) (CallReturn ε δ α)) × I2cConnection ε :=
  (conn.read es slave_address cmd, conn)

/-- State-passing form of `execute`; no method body mutates the connection. -/
def I2cConnection.executeS (es : ε → String) (conn : I2cConnection ε)
    (slave_address : Nat) (cmd : I2cCommand δ α) :
    Option (Except (Raised ε δ) (CallReturn ε δ α)) × I2cConnection ε :=
  (conn.execute es slave_address cmd, conn)

/-- One bus operation performed by the MicroPython transceiver, with the
device address it targets. -/
inductive BusOp where
  | write (addr : Nat) (data : List Nat)
  | read (addr : Nat) (len : Nat)
  deriving DecidableEq

/-- The address a bus operation targets. -/
def BusOp.addr : BusOp → Nat
  | .write a _ => a
  | .read a _ => a

/-- The `machine.I2C` bus object as `micropython_i2c_transceiver.py` uses it:
`writeto(addr, data)` and `readfrom(addr, length)`, each either succeeding
or raising an `OSError` (of opaque type `ε`). -/
structure I2CBus (ε : Type) where
  writeto : Nat → List Nat → Except ε Unit
  readfrom : Nat → Nat → Except ε (List Nat)

/-- `MicroPythonI2cTransceiver.__init__` (micropython_i2c_transceiver.py
lines 42-48): `self._addr = i2c.scan()[0]`, i.e. the stored target address
is the first address the bus scan found (crashes when the scan found
nothing, hence `Option`). -/
def mpInitAddr (scanResult : List Nat) : Option Nat :=
  scanResult.head?

/-- `MicroPythonI2cTransceiver.transceive` (micropython_i2c_transceiver.py
lines 63-116), instrumented with the list of bus operations performed.
`addr` is the stored `self._addr`. Start with
`(STATUS_OK, None, b"")`; if `tx_data` is given, `writeto(self._addr, ...)`,
an `OSError` setting status UNSPECIFIED_ERROR; the `time.sleep(read_delay)`
is not modelled; if `rx_length` is given and the status is still OK,
`readfrom(self._addr, ...)`, an `OSError` again setting status
UNSPECIFIED_ERROR. The `timeout` parameter is ignored by the source. -/
def mpTransceive (bus : I2CBus ε) (addr : Nat) (slave_address : Nat)
    (tx_data : Option (List Nat)) (rx_length : Option Nat)
    (read_delay timeout : Nat) : RawTriple ε × List BusOp :=
  let writePhase : Int × Option ε × List BusOp :=
    match tx_data with
    | none => (STATUS_OK, none, [])
    | some d =>
      match bus.writeto addr d with
      | .ok _ => (STATUS_OK, none, [BusOp.write addr d])
      | .error e => (STATUS_UNSPECIFIED_ERROR, some e, [BusOp.write addr d])
  let (st1, er1, ops1) := writePhase
  match rx_length with
  | some n =>
    if st1 = STATUS_OK then
      match bus.readfrom addr n with
      | .ok received => (⟨st1, er1, received⟩, ops1 ++ [BusOp.read addr n])
      | .error e =>
        (⟨STATUS_UNSPECIFIED_ERROR, some e, []⟩, ops1 ++ [BusOp.read addr n])
    else
      (⟨st1, er1, []⟩, ops1)
  | none => (⟨st1, er1, []⟩, ops1)

/-! Concrete fixtures used by witness theorems. -/

/-- Python's `str` on a `Nat` error object, for concrete instances. -/
def esNat : Nat → String := toString

/-- A single-channel API-V1 transceiver that always reports NACK with
underlying error object `7` and empty payload. -/
def tSingleNack : Transceiver Nat :=
  ⟨1, none, fun _ _ _ _ _ => .single ⟨STATUS_NACK, some 7, []⟩⟩

/-- A two-channel API-V1 transceiver: channel 0 reports NACK, channel 1
succeeds with payload `[4, 5]`. -/
def tMultiMixed : Transceiver Nat :=
  ⟨1, some 2, fun _ _ _ _ _ =>
    .multi [⟨STATUS_NACK, some 7, []⟩, ⟨STATUS_OK, none, [4, 5]⟩]⟩

/-- A transceiver declaring the unsupported API version 2. -/
def tVersion2 : Transceiver Nat :=
  ⟨2, none, fun _ _ _ _ _ => .single ⟨STATUS_OK, none, []⟩⟩

/-- A single-channel API-V1 transceiver that succeeds with an empty payload
exactly when called with no expected read length, and reports TIMEOUT on any
transaction that has a read phase. -/
def tWriteOnlyOk : Transceiver Nat :=
  ⟨1, none, fun _ _ rx _ _ =>
    match rx with
    | none => .single ⟨STATUS_OK, none, []⟩
    | some _ => .single ⟨STATUS_TIMEOUT, none, []⟩⟩

/-- A command whose decode returns the length of the received bytes. -/
def cmdLen : I2cCommand Nat Nat :=
  ⟨some [1, 2], some 3, 0, 5, fun rx => .ok rx.length⟩

/-- A command whose decode always raises the exception `3`. -/
def cmdFail : I2cCommand Nat Nat :=
  ⟨some [1], some 2, 0, 5, fun _ => .error 3⟩

/-- A command with a 2-byte outgoing payload and no expected response, whose
decode returns `None` on an empty payload. -/
def cmdWriteOnly : I2cCommand Nat (Option Nat) :=
  ⟨some [17, 34], none, 0, 5, fun rx =>
    match rx with
    | [] => .ok none
    | l => .ok (some l.length)⟩

/-- A bus on which every write fails with `OSError` object `13` and every
read succeeds. -/
def busWriteFails : I2CBus Nat :=
  ⟨fun _ _ => .error 13, fun _ n => .ok (List.replicate n 9)⟩

/-- A bus on which every operation succeeds. -/
def busAllOk : I2CBus Nat :=
  ⟨fun _ _ => .ok (), fun _ n => .ok (List.replicate n 0)⟩

/-! Theorems settling the claims. -/

/-- C3: the status-to-error conversion of the V1 adapter is total and
deterministic: status OK passes the raw bytes through, CHANNEL_DISABLED,
NACK and TIMEOUT each yield their error, and any other status yields the
generic transceive error carrying the underlying error object and its
string form; every status maps to exactly one outcome. -/
theorem convert_result_v1_total_mapping (es : ε → String) (st : Int)
    (er : Option ε) (rx : List Nat) :
    (st = STATUS_OK → convertResultV1 es ⟨st, er, rx⟩ = .data rx) ∧
    (st = STATUS_CHANNEL_DISABLED →
      convertResultV1 es ⟨st, er, rx⟩ = .err (.channelDisabled er rx)) ∧
    (st = STATUS_NACK →
      convertResultV1 es ⟨st, er, rx⟩ = .err (.nack er rx)) ∧
    (st = STATUS_TIMEOUT →
      convertResultV1 es ⟨st, er, rx⟩ = .err (.timeout er rx)) ∧
    (st ≠ STATUS_OK ∧ st ≠ STATUS_CHANNEL_DISABLED ∧ st ≠ STATUS_NACK ∧
        st ≠ STATUS_TIMEOUT →
      convertResultV1 es ⟨st, er, rx⟩ =
        .err (.transceiveErr er rx (pyStr es er))) ∧
    (∃! c, convertResultV1 es ⟨st, er, rx⟩ = c) := by
  refine ⟨?_, ?_, ?_, ?_, ?_, ⟨_, rfl, fun y hy => hy.symm⟩⟩ <;>
    intro h
  · simp [convertResultV1, h]
  · simp [convertResultV1, h, STATUS_OK, STATUS_CHANNEL_DISABLED]
  · simp [convertResultV1, h, STATUS_OK, STATUS_CHANNEL_DISABLED, STATUS_NACK]
  · simp [convertResultV1, h, STATUS_OK, STATUS_CHANNEL_DISABLED, STATUS_NACK,
      STATUS_TIMEOUT]
  · simp [convertResultV1, h.1, h.2.1, h.2.2.1, h.2.2.2]

/-- Witness for C3: the conversion evaluated at each status class. -/
theorem convert_result_v1_total_mapping_witness :
    convertResultV1 esNat ⟨0, some 5, [1, 2]⟩ = .data [1, 2] ∧
    convertResultV1 esNat ⟨1, some 5, [1, 2]⟩ =
      .err (.channelDisabled (some 5) [1, 2]) ∧
    convertResultV1 esNat ⟨2, some 5, [1, 2]⟩ = .err (.nack (some 5) [1, 2]) ∧
    convertResultV1 esNat ⟨3, some 5, [1, 2]⟩ =
      .err (.timeout (some 5) [1, 2]) ∧
    convertResultV1 esNat ⟨9, some 5, [1, 2]⟩ =
      .err (.transceiveErr (some 5) [1, 2] (pyStr esNat (some 5))) :=
  ⟨(convert_result_v1_total_mapping esNat 0 (some 5) [1, 2]).1 rfl,
   (convert_result_v1_total_mapping esNat 1 (some 5) [1, 2]).2.1 rfl,
   (convert_result_v1_total_mapping esNat 2 (some 5) [1, 2]).2.2.1 rfl,
   (convert_result_v1_total_mapping esNat 3 (some 5) [1, 2]).2.2.2.1 rfl,
   (convert_result_v1_total_mapping esNat 9 (some 5) [1, 2]).2.2.2.2.1
     (by decide)⟩

/-- C1: on a connection over a single-channel transceiver (one whose
`channel_count` is `None` and whose `transceive` returns a single, non-list
triple, described by the function `raw` of the transaction parameters) with
`always_multi_channel_response` false, each of `write`/`read`/`execute`
raises the interpreted per-channel error when there is one, and otherwise
returns the decoded value directly, not wrapped in any sequence. -/
theorem single_channel_flag_unset_policy (es : ε → String) (t : Transceiver ε)
    (cmd : I2cCommand δ α) (sa : Nat)
    (raw : Option (List Nat) → Option Nat → Nat → Nat → RawTriple ε)
    (hv : t.API_VERSION = 1) (hc : t.channel_count = none)
    (ht : ∀ tx rx rd tmo, t.transceive sa tx rx rd tmo = .single (raw tx rx rd tmo)) :
    (∀ e, interpretSingleResponse cmd
        (convertResultV1 es (raw cmd.tx_data none 0 cmd.timeout)) = .err e →
      (I2cConnection.mk t false).write es sa cmd =
        some (.error (.captured e))) ∧
    (∀ v, interpretSingleResponse cmd
        (convertResultV1 es (raw cmd.tx_data none 0 cmd.timeout)) = .val v →
      (I2cConnection.mk t false).write es sa cmd = some (.ok (.direct v))) ∧
    (∀ e, interpretSingleResponse cmd
        (convertResultV1 es (raw none cmd.rx_length 0 cmd.timeout)) = .err e →
      (I2cConnection.mk t false).read es sa cmd =
        some (.error (.captured e))) ∧
    (∀ v, interpretSingleResponse cmd
        (convertResultV1 es (raw none cmd.rx_length 0 cmd.timeout)) = .val v →
      (I2cConnection.mk t false).read es sa cmd = some (.ok (.direct v))) ∧
    (∀ e, interpretSingleResponse cmd
        (convertResultV1 es
          (raw cmd.tx_data cmd.rx_length cmd.read_delay cmd.timeout)) = .err e →
      (I2cConnection.mk t false).execute es sa cmd =
        some (.error (.captured e))) ∧
    (∀ v, interpretSingleResponse cmd
        (convertResultV1 es
          (raw cmd.tx_data cmd.rx_length cmd.read_delay cmd.timeout)) = .val v →
      (I2cConnection.mk t false).execute es sa cmd =
        some (.ok (.direct v))) := by
  refine ⟨?_, ?_, ?_, ?_, ?_, ?_⟩ <;> intro x hx <;>
    simp [I2cConnection.write, I2cConnection.read, I2cConnection.execute,
      runCall, connTransceive, hv, transceiveV1, hc, ht, interpretResponse, hx]

/-- Witness for C1: a NACK fault on a single-channel connection with the
flag unset is raised by `write`. -/
theorem single_channel_flag_unset_policy_witness :
    interpretSingleResponse cmdLen
        (convertResultV1 esNat ⟨STATUS_NACK, some 7, []⟩) =
      .err (.i2c (.nack (some 7) [])) ∧
    (I2cConnection.mk tSingleNack false).write esNat 8 cmdLen =
      some (.error (.captured (.i2c (.nack (some 7) [])))) :=
  ⟨by decide,
   (single_channel_flag_unset_policy esNat tSingleNack cmdLen 8
      (fun _ _ _ _ => ⟨STATUS_NACK, some 7, []⟩) rfl rfl
      (fun _ _ _ _ => rfl)).1 _ (by decide)⟩

/-- C6: on a connection over a single-channel transceiver with
`always_multi_channel_response` true, each of `write`/`read`/`execute`
never raises and returns the one-element list holding the single
interpreted response (error value or decoded value). -/
theorem single_channel_flag_set_wraps (es : ε → String) (t : Transceiver ε)
    (cmd : I2cCommand δ α) (sa : Nat)
    (raw : Option (List Nat) → Option Nat → Nat → Nat → RawTriple ε)
    (hv : t.API_VERSION = 1) (hc : t.channel_count = none)
    (ht : ∀ tx rx rd tmo, t.transceive sa tx rx rd tmo = .single (raw tx rx rd tmo)) :
    ((I2cConnection.mk t true).write es sa cmd =
      some (.ok (.list [interpretSingleResponse cmd
        (convertResultV1 es (raw cmd.tx_data none 0 cmd.timeout))]))) ∧
    ((I2cConnection.mk t true).read es sa cmd =
      some (.ok (.list [interpretSingleResponse cmd
        (convertResultV1 es (raw none cmd.rx_length 0 cmd.timeout))]))) ∧
    ((I2cConnection.mk t true).execute es sa cmd =
      some (.ok (.list [interpretSingleResponse cmd
        (convertResultV1 es
          (raw cmd.tx_data cmd.rx_length cmd.read_delay cmd.timeout))]))) ∧
    (∀ x, (I2cConnection.mk t true).write es sa cmd ≠ some (.error x)) ∧
    (∀ x, (I2cConnection.mk t true).read es sa cmd ≠ some (.error x)) ∧
    (∀ x, (I2cConnection.mk t true).execute es sa cmd ≠ some (.error x)) := by
  refine ⟨?_, ?_, ?_, ?_, ?_, ?_⟩ <;>
    simp [I2cConnection.write, I2cConnection.read, I2cConnection.execute,
      runCall, connTransceive, hv, transceiveV1, hc, ht, interpretResponse]

/-- Witness for C6: the same NACK fault with the flag set is returned by
`write` as a one-element list holding the error value. -/
theorem single_channel_flag_set_wraps_witness :
    (I2cConnection.mk tSingleNack true).write esNat 8 cmdLen =
      some (.ok (.list [.err (.i2c (.nack (some 7) []))])) :=
  (single_channel_flag_set_wraps esNat tSingleNack cmdLen 8
    (fun _ _ _ _ => ⟨STATUS_NACK, some 7, []⟩) rfl rfl
    (fun _ _ _ _ => rfl)).1

/-- C2: on a connection over a multi-channel transceiver (one declaring a
channel count and returning a list of raw triples, described by `raws`),
each of `write`/`read`/`execute` never raises and returns the list of
per-channel interpreted responses in channel order, whatever the value of
`always_multi_channel_response`; the list has exactly the transceiver's
number of outcomes, a faulted channel contributes its mapped error, and a
successful channel contributes its decoded value. -/
theorem multi_channel_isolation (es : ε → String) (t : Transceiver ε)
    (cmd : I2cCommand δ α) (sa : Nat) (flag : Bool) (k : Nat)
    (raws : Option (List Nat) → Option Nat → Nat → Nat → List (RawTriple ε))
    (hv : t.API_VERSION = 1) (hc : t.channel_count = some k)
    (ht : ∀ tx rx rd tmo,
      t.transceive sa tx rx rd tmo = .multi (raws tx rx rd tmo)) :
    ((I2cConnection.mk t flag).write es sa cmd =
      some (.ok (.list ((raws cmd.tx_data none 0 cmd.timeout).map
        (fun r => interpretSingleResponse cmd (convertResultV1 es r)))))) ∧
    ((I2cConnection.mk t flag).read es sa cmd =
      some (.ok (.list ((raws none cmd.rx_length 0 cmd.timeout).map
        (fun r => interpretSingleResponse cmd (convertResultV1 es r)))))) ∧
    ((I2cConnection.mk t flag).execute es sa cmd =
      some (.ok (.list
        ((raws cmd.tx_data cmd.rx_length cmd.read_delay cmd.timeout).map
          (fun r => interpretSingleResponse cmd (convertResultV1 es r)))))) ∧
    (∀ rs : List (RawTriple ε),
      (rs.map (fun r => interpretSingleResponse cmd
        (convertResultV1 es r))).length = rs.length) ∧
    (∀ (r : RawTriple ε) e, convertResultV1 es r = .err e →
      interpretSingleResponse cmd (convertResultV1 es r) =
        (.err (.i2c e) : Interpreted ε δ α)) ∧
    (∀ (r : RawTriple ε) rx v, convertResultV1 es r = .data rx →
      cmd.interpret_response rx = .ok v →
      interpretSingleResponse cmd (convertResultV1 es r) = .val v) := by
  refine ⟨?_, ?_, ?_, fun rs => rs.length_map _, ?_, ?_⟩
  · simp [I2cConnection.write, runCall, connTransceive, hv, transceiveV1, hc,
      ht, interpretResponse]
  · simp [I2cConnection.read, runCall, connTransceive, hv, transceiveV1, hc,
      ht, interpretResponse]
  · simp [I2cConnection.execute, runCall, connTransceive, hv, transceiveV1, hc,
      ht, interpretResponse]
  · intro r e he
    simp [he, interpretSingleResponse]
  · intro r rx v hd hi
    simp [hd, interpretSingleResponse, hi]

/-- Witness for C2: a two-channel transceiver where channel 0 NACKs and
channel 1 succeeds; `read` returns the error value for channel 0 and the
decoded value for channel 1, in order, without raising. -/
theorem multi_channel_isolation_witness :
    (I2cConnection.mk tMultiMixed false).read esNat 8 cmdLen =
      some (.ok (.list [.err (.i2c (.nack (some 7) [])), .val 2])) := by
  have h := multi_channel_isolation esNat tMultiMixed cmdLen 8 false 2
    (fun _ _ _ _ => [⟨STATUS_NACK, some 7, []⟩, ⟨STATUS_OK, none, [4, 5]⟩])
    rfl rfl (fun _ _ _ _ => rfl)
  simpa using h.2.1

/-- C4: with a transceiver whose declared API version is not 1 (the only
supported version), `write`/`read`/`execute` all raise the configuration
fault with the unsupported-version message, for every connection (hence
every flag value, every channel count and every `transceive` behaviour —
the conclusion does not depend on the transceiver's primitive, which is
therefore never consulted) and with no partial result. -/
theorem unsupported_api_version_raises (es : ε → String)
    (conn : I2cConnection ε) (cmd : I2cCommand δ α) (sa : Nat)
    (hv : conn.transceiver.API_VERSION ≠ 1) :
    conn.write es sa cmd =
      some (.error (.config (configMsg conn.transceiver.API_VERSION))) ∧
    conn.read es sa cmd =
      some (.error (.config (configMsg conn.transceiver.API_VERSION))) ∧
    conn.execute es sa cmd =
      some (.error (.config (configMsg conn.transceiver.API_VERSION))) := by
  refine ⟨?_, ?_, ?_⟩ <;>
    simp [I2cConnection.write, I2cConnection.read, I2cConnection.execute,
      runCall, connTransceive, hv]

/-- Witness for C4: an API version 2 transceiver makes all three operations
raise the configuration fault. -/
theorem unsupported_api_version_raises_witness :
    (I2cConnection.mk tVersion2 false).write esNat 8 cmdLen =
      some (.error (.config (configMsg 2))) ∧
    (I2cConnection.mk tVersion2 false).read esNat 8 cmdLen =
      some (.error (.config (configMsg 2))) ∧
    (I2cConnection.mk tVersion2 false).execute esNat 8 cmdLen =
      some (.error (.config (configMsg 2))) :=
  unsupported_api_version_raises esNat (I2cConnection.mk tVersion2 false)
    cmdLen 8 (by decide)

/-- C5: per-channel interpretation passes captured errors through unchanged
for every command (so the decode operation is never consulted on error
outcomes); on a data outcome whose decode raises, the exception is captured
and returned as an error value, which the mode policy then treats exactly
like a transceiver fault: raised in single-channel mode with the flag
unset, returned inside the list in flag-set mode and in multi-channel
mode. -/
theorem interpret_single_response_policy (cmd : I2cCommand δ α) :
    (∀ e : I2cError ε,
      interpretSingleResponse cmd (ConvertedV1.err e) = .err (.i2c e)) ∧
    (∀ rx d, cmd.interpret_response rx = .error d →
      interpretSingleResponse cmd (ConvertedV1.data rx : ConvertedV1 ε) =
        .err (.decode d)) ∧
    (∀ rx d, cmd.interpret_response rx = .error d →
      interpretResponse false cmd
          (ConvertedResponse.single (ConvertedV1.data rx : ConvertedV1 ε)) =
        .error (.decode d)) ∧
    (∀ rx d, cmd.interpret_response rx = .error d →
      interpretResponse true cmd
          (ConvertedResponse.single (ConvertedV1.data rx : ConvertedV1 ε)) =
        .ok (.list [.err (.decode d)])) ∧
    (∀ (flag : Bool) (cs : List (ConvertedV1 ε)),
      interpretResponse flag cmd (ConvertedResponse.multi cs) =
        .ok (.list (cs.map (fun ch => interpretSingleResponse cmd ch)))) := by
  refine ⟨fun e => rfl, ?_, ?_, ?_, fun flag cs => rfl⟩ <;>
    intro rx d hd <;>
    simp [interpretSingleResponse, interpretResponse, hd]

/-- Witness for C5: a command whose decode always raises exception `3`:
the captured error passes through unchanged, the decode failure is captured,
raised with the flag unset, and returned as a value with the flag set. -/
theorem interpret_single_response_policy_witness :
    interpretSingleResponse cmdFail
        (ConvertedV1.err (.nack (some 7) []) : ConvertedV1 Nat) =
      .err (.i2c (.nack (some 7) [])) ∧
    interpretSingleResponse cmdFail (ConvertedV1.data [9] : ConvertedV1 Nat) =
      .err (.decode 3) ∧
    interpretResponse false cmdFail
        (ConvertedResponse.single (ConvertedV1.data [9] : ConvertedV1 Nat)) =
      .error (.decode 3) ∧
    interpretResponse true cmdFail
        (ConvertedResponse.single (ConvertedV1.data [9] : ConvertedV1 Nat)) =
      .ok (.list [.err (.decode 3)]) := by
  have h := interpret_single_response_policy (ε := Nat) cmdFail
  exact ⟨h.1 _, h.2.1 [9] 3 rfl, h.2.2.1 [9] 3 rfl, h.2.2.2.1 [9] 3 rfl⟩

/-- C7: on a single-channel API-version-1 transceiver whose transaction at
the write-only parameter shape (the command's tx_data, no expected read
length, read delay 0) returns `(OK, None, b"")`, a `write` call with the
flag unset returns the command's decode of the empty payload — `None` for a
command with no payload to decode. The transceiver hypothesis constrains
the primitive only at rx_length `none` and read delay `0`, so the proof
also establishes that `write` assembles its transaction with no expected
read length and no inter-phase delay. -/
theorem write_success_no_read_phase (es : ε → String) (t : Transceiver ε)
    (cmd : I2cCommand δ (Option β)) (sa : Nat)
    (hv : t.API_VERSION = 1) (hc : t.channel_count = none)
    (ht : t.transceive sa cmd.tx_data none 0 cmd.timeout =
      .single ⟨STATUS_OK, none, []⟩)
    (hd : cmd.interpret_response [] = .ok none) :
    (I2cConnection.mk t false).write es sa cmd = some (.ok (.direct none)) := by
  simp [I2cConnection.write, runCall, connTransceive, hv, transceiveV1, hc,
    ht, interpretResponse, interpretSingleResponse, convertResultV1, hd]

/-- Witness for C7: a 2-byte write on a transceiver that succeeds exactly on
transactions without a read phase returns `none`. -/
theorem write_success_no_read_phase_witness :
    (I2cConnection.mk tWriteOnlyOk false).write esNat 8 cmdWriteOnly =
      some (.ok (.direct none)) :=
  write_success_no_read_phase esNat tWriteOnlyOk cmdWriteOnly 8 rfl rfl rfl rfl

/-- C9: the connection operations, embedded in state-passing form, leave the
connection unchanged: each of `write`/`read`/`execute` returns the identical
connection state, so neither the `always_multi_channel_response` flag nor
the transceiver reference is modified, and calling `read` a second time on
the post-state connection yields the same interpreted result (the
transceiver is a function of its arguments, hence deterministically returns
the same raw outcome both times). -/
theorem connection_stateless_idempotent (es : ε → String)
    (conn : I2cConnection ε) (cmd : I2cCommand δ α) (sa : Nat) :
    ((conn.writeS es sa cmd).2 = conn) ∧
    ((conn.readS es sa cmd).2 = conn) ∧
    ((conn.executeS es sa cmd).2 = conn) ∧
    (((conn.readS es sa cmd).2.readS es sa cmd).1 =
      (conn.readS es sa cmd).1) ∧
    ((conn.readS es sa cmd).2.always_multi_channel_response =
      conn.always_multi_channel_response) ∧
    ((conn.readS es sa cmd).2.transceiver = conn.transceiver) :=
  ⟨rfl, rfl, rfl, rfl, rfl, rfl⟩

/-- C10: in the MicroPython transceiver, when both tx_data and rx_length are
given and the bus write raises an `OSError`, the read is never attempted
(the performed bus operations are exactly the one write) and the returned
outcome is `(STATUS_UNSPECIFIED_ERROR, the write's OSError, b"")`, with the
byte payload an (empty) bytes value. -/
theorem mp_write_failure_skips_read_phase (bus : I2CBus ε) (addr sa : Nat)
    (d : List Nat) (n rd tmo : Nat) (e : ε)
    (hw : bus.writeto addr d = .error e) :
    mpTransceive bus addr sa (some d) (some n) rd tmo =
      (⟨STATUS_UNSPECIFIED_ERROR, some e, []⟩, [BusOp.write addr d]) ∧
    (∀ op ∈ (mpTransceive bus addr sa (some d) (some n) rd tmo).2,
      ∀ a l, op ≠ BusOp.read a l) := by
  have hmain : mpTransceive bus addr sa (some d) (some n) rd tmo =
      (⟨STATUS_UNSPECIFIED_ERROR, some e, []⟩, [BusOp.write addr d]) := by
    simp [mpTransceive, hw, STATUS_UNSPECIFIED_ERROR, STATUS_OK]
  refine ⟨hmain, ?_⟩
  intro op hop a l
  rw [hmain] at hop
  simp only [List.mem_singleton] at hop
  subst hop
  exact fun hcon => BusOp.noConfusion hcon

/-- Witness for C10: on a bus whose writes fail with OSError object `13`
(and whose reads would succeed), the transceive outcome is
`(STATUS_UNSPECIFIED_ERROR, 13, b"")` and only the write was attempted. -/
theorem mp_write_failure_skips_read_phase_witness :
    mpTransceive busWriteFails 16 16 (some [1, 2]) (some 3) 0 5 =
      (⟨STATUS_UNSPECIFIED_ERROR, some 13, []⟩, [BusOp.write 16 [1, 2]]) :=
  (mp_write_failure_skips_read_phase busWriteFails 16 16 [1, 2] 3 0 5 13
    rfl).1

/-- C8 (evaluation of the code at the failing input): a MicroPython
transceiver constructed over a bus whose scan found address 16 stores
`_addr = 16`; calling `transceive` with `slave_address = 32` performs its
bus write against address 16, not 32 — the claim that every bus operation
targets the call's slave_address parameter is false. -/
theorem mp_transceive_ignores_slave_address :
    mpInitAddr [16] = some 16 ∧
    (mpTransceive busAllOk 16 32 (some [1]) none 0 5).2 =
      [BusOp.write 16 [1]] ∧
    ¬ ∀ op ∈ (mpTransceive busAllOk 16 32 (some [1]) none 0 5).2,
        op.addr = 32 := by
  refine ⟨rfl, rfl, fun h => ?_⟩
  have h16 := h (BusOp.write 16 [1]) (by simp [mpTransceive, busAllOk])
  simp [BusOp.addr] at h16

end SensirionI2cDriver
